import Mathlib

/-!
Shallow embedding of the home-backup script (`improved-backup-script.py`).

The script orchestrates three pieces of logic:

* `GitHubManager._verify_repo_status` / `_delete_repo` / `get_or_create_repo`
  (the remote-repository reconciler),
* `HomeBackup.backup_configs` (the tree mirror), and
* `HomeBackup.setup_git_repo` (the local-repository synchronizer),

all driven by `HomeBackup.run_backup`.  External collaborators (the `gh`
API client, `git`, the filesystem) are modelled as explicit oracles /
state records; the control flow of each Python function is translated
line by line into a pure Lean function over those oracles.  `sys.exit`
and uncaught `subprocess.CalledProcessError` exceptions are modelled by
the `RunResult.exit` constructor.
-/

namespace Backup

/-- Outcome of running a piece of the script: a normal return, or process
termination with an exit code (`sys.exit(1)` or an uncaught error). -/
inductive RunResult (α : Type) where
  | ok (a : α)
  | exit (code : Nat)
deriving DecidableEq

/-- Observed result of one `gh api` subprocess call: its return code and its
captured standard error stream. -/
structure ApiResult where
  returncode : Int
  stderr : String
deriving DecidableEq

/-- Boolean prefix test on character lists. -/
def isPrefixB : List Char → List Char → Bool
  | [], _ => true
  | _ :: _, [] => false
  | a :: as, b :: bs => a == b && isPrefixB as bs

/-- Boolean substring-occurrence test on character lists. -/
def subOccurs (pat : List Char) : List Char → Bool
  | [] => pat.isEmpty
  | c :: rest => isPrefixB pat (c :: rest) || subOccurs pat rest

/-- The Python `pat in s` substring test, on strings. -/
def strContains (s pat : String) : Bool :=
  subOccurs pat.toList s.toList

/-- The marker the script looks for in `gh` stderr on a 404 response. -/
def notFoundMarker : String := "\"message\": \"Not Found\""

/-- The deterministically derived clone URL
`https://github.com/<username>/<repoName>.git` (the f-string at lines 65
and 118 of the script). -/
def mkRepoUrl (username repoName : String) : String :=
  "https://github.com/" ++ username ++ "/" ++ repoName ++ ".git"

/-- Embedding of `GitHubManager._verify_repo_status` (lines 52-73): classify one
existence-probe result into `exists` / `not_found` / `unknown`, returning
`(exists?, status message, optional repo url)` exactly as the Python code
does. -/
def verify_repo_status (username repoName : String) (api : ApiResult) :
    Bool × String × Option String :=
  if api.returncode = 0 then
    (true, "exists", some (mkRepoUrl username repoName))
  else if strContains api.stderr notFoundMarker then
    (false, "not_found", none)
  else
    (false, "unknown", none)

end Backup

namespace Backup

/-- C2 helper: the status string returned by the existence check. -/
def statusOf (username repoName : String) (api : ApiResult) : String :=
  (verify_repo_status username repoName api).2.1

/-- Claim C2. The existence check classifies a single probe result into exactly
three outcomes: `exists` iff the call succeeded (return code 0),
`not_found` iff it failed and the error output contains the
`"message": "Not Found"` marker, and `unknown` iff it failed without that
marker; the three conditions partition all inputs, so no result is
classified as both or neither. -/
theorem C2_verify_status_trichotomy (username repoName : String) (api : ApiResult) :
    ((statusOf username repoName api = "exists") ↔ api.returncode = 0)
    ∧ ((statusOf username repoName api = "not_found") ↔
        (api.returncode ≠ 0 ∧ strContains api.stderr notFoundMarker = true))
    ∧ ((statusOf username repoName api = "unknown") ↔
        (api.returncode ≠ 0 ∧ strContains api.stderr notFoundMarker = false))
    ∧ ((verify_repo_status username repoName api).1 = true ↔ api.returncode = 0) := by
  unfold statusOf verify_repo_status
  by_cases h0 : api.returncode = 0 <;>
    by_cases hm : strContains api.stderr notFoundMarker = true <;>
      simp_all

/-- Abstract lifecycle state of the single remote repository
`(username, repoName)` the script manipulates (spec data model §3). -/
inductive RepoState where
  | absent
  | existing
  | created
deriving DecidableEq

/-- Oracle for the GitHub-side collaborators of the reconciler: whether
`gh auth status` succeeds, the observed probe result of the existence
check as a function of the current remote state, and whether the DELETE
and the create POST calls return code 0 (plus the captured stderr of a
failed create, which the script echoes). -/
structure GHApi where
  authOk : Bool
  probe : RepoState → ApiResult
  deleteOk : Bool
  createOk : Bool
  createStderr : String

/-- External calls the reconciler can issue, in order. -/
inductive GHAction where
  | authCheck
  | probeRepo
  | deleteRepo
  | createRepo
deriving DecidableEq

/-- Result of one run of `GitHubManager.get_or_create_repo`: the returned
value (or process exit), the remote repository state afterwards, the calls
issued, and the diagnostic messages printed. -/
structure ReconOut where
  result : RunResult String
  repo : RepoState
  acts : List GHAction
  msgs : List String
deriving DecidableEq

/-- The create-POST step of `get_or_create_repo` (lines 107-127): on
return code 0 the script returns the URL derived via `mkRepoUrl` (the
create response body is never consulted) and the remote is freshly
created; otherwise it prints the error and exits with status 1. -/
def createStep (api : GHApi) (username repoName : String) (s : RepoState)
    (acts : List GHAction) : ReconOut :=
  if api.createOk then
    { result := .ok (mkRepoUrl username repoName), repo := .created,
      acts := acts ++ [.createRepo],
      msgs := ["Successfully created repository: " ++ repoName] }
  else
    { result := .exit 1, repo := s, acts := acts ++ [.createRepo],
      msgs := ["Error creating repository: " ++ api.createStderr] }

/-- Embedding of `GitHubManager.get_or_create_repo` (lines 88-127): verify
authentication, probe existence, delete the repository when the probe
classifies it as existing (aborting on delete failure), then create it. -/
def get_or_create_repo (api : GHApi) (username repoName : String)
    (s : RepoState) : ReconOut :=
  if api.authOk = false then
    { result := .exit 1, repo := s, acts := [.authCheck],
      msgs := ["Not authenticated with GitHub."] }
  else
    let v := verify_repo_status username repoName (api.probe s)
    if v.1 then
      if api.deleteOk then
        createStep api username repoName .absent
          [.authCheck, .probeRepo, .deleteRepo]
      else
        { result := .exit 1, repo := s,
          acts := [.authCheck, .probeRepo, .deleteRepo],
          msgs := ["Failed to delete existing repository."] }
    else
      createStep api username repoName s [.authCheck, .probeRepo]

/-- The fixed ignore patterns of the script (`HomeBackup.IGNORE_PATTERNS`). -/
def IGNORE_PATTERNS : List String :=
  ["*/__pycache__/*",
   "*.pyc",
   "*/.git/*",
   "*/node_modules/*",
   "*/.ipynb_checkpoints/*",
   "*/.Trash/*",
   "*/Cache/*",
   "*/.cache/*"]

/-- Newline join of the ignore patterns, as written to `.gitignore`. -/
def joinLines (patterns : List String) : String := "\n".intercalate patterns

/-- Oracle for the `git` subprocess calls issued by
`HomeBackup.setup_git_repo`: whether `git init` succeeds, whether
`git remote add` succeeds, the stdout of `git remote -v`, whether
`git add .` succeeds, whether `git commit` fails for a reason other than
an unchanged tree, and whether `git push` succeeds. -/
structure GitOracle where
  initOk : Bool
  remoteAddOk : Bool
  remoteListing : String
  addAllOk : Bool
  commitExtraFail : Bool
  pushOk : Bool
deriving DecidableEq

/-- State of the local staging-tree repository: whether `.git` exists,
the current content of `.gitignore` (if any), the tree recorded by the
last commit (if any), and the current content of the working tree. -/
structure GitState where
  gitExists : Bool
  gitignore : Option String
  headTree : Option String
  workTree : String
deriving DecidableEq

/-- Result of one run of `HomeBackup.setup_git_repo`. -/
structure SyncOut where
  result : RunResult Unit
  state : GitState
  msgs : List String
deriving DecidableEq

/-- The remote-binding verification of `setup_git_repo` (lines 488-496):
read back `git remote -v` and exit with status 1 unless the expected URL
occurs somewhere in that output (the Python `repo_url not in result.stdout` test). -/
def verifyRemoteBinding (repoUrl listing : String) :
    RunResult Unit × List String :=
  if strContains listing repoUrl then
    (.ok (), [])
  else
    (.exit 1,
     ["Warning: Remote URL verification failed",
      "Expected: " ++ repoUrl,
      "Current remotes:",
      listing])

/-- Embedding of `HomeBackup.setup_git_repo` (lines 465-517): initialize the repository
and write `.gitignore` only when `.git` is absent, reset the `origin`
remote, verify the binding, stage everything, commit (any commit failure
is caught and reported as `No changes to commit`), and push (a push
failure is caught and reported with the manual recovery commands).
`git init`, `git remote add` and `git add .` run with `check=True`, so
their failure terminates the process. -/
def setup_git_repo (patterns : List String) (backupDir repoUrl : String)
    (o : GitOracle) (s : GitState) : SyncOut :=
  if s.gitExists = false ∧ o.initOk = false then
    { result := .exit 1, state := s, msgs := [] }
  else
    let s1 :=
      if s.gitExists then s
      else { s with gitExists := true,
                    gitignore := some (joinLines patterns) }
    if o.remoteAddOk = false then
      { result := .exit 1, state := s1, msgs := [] }
    else
      let v := verifyRemoteBinding repoUrl o.remoteListing
      match v.1 with
      | .exit c => { result := .exit c, state := s1, msgs := v.2 }
      | .ok _ =>
        if o.addAllOk = false then
          { result := .exit 1, state := s1, msgs := [] }
        else
          let commitFails :=
            o.commitExtraFail = true ∨ s1.headTree = some s1.workTree
          let s2 :=
            if commitFails then s1
            else { s1 with headTree := some s1.workTree }
          let commitMsg :=
            if commitFails then ("No changes to commit") else ("Committed changes")
          let pushMsgs :=
            if o.pushOk then ["Pushed to remote"]
            else
              ["Warning: Error pushing to remote",
               "Manual push may be needed:",
               "cd " ++ backupDir,
               "git push -u origin main"]
          { result := .ok (), state := s2, msgs := commitMsg :: pushMsgs }

/-- A filesystem path, as a list of components. -/
abbrev FPath := List String

/-- A source filesystem object: a plain file, or a directory with named
children (the view `src.is_file()` / `os.walk` gives the script). -/
inductive FSTree where
  | file
  | dir (children : List (String × FSTree))

/-- Why a single `shutil.copy2` call failed: `PermissionError`, or any
other exception (the two inner `except` clauses of `backup_configs`). -/
inductive FailKind where
  | perm
  | other
deriving DecidableEq

/-- Observable filesystem effects and console reports of
`HomeBackup.backup_configs`. -/
inductive MirrorEvent where
  | mkdirP (dst : FPath)
  | copied (src : FPath)
  | warnPerm (src : FPath)
  | warnCopy (src : FPath)
  | okEntry (entry : String)
  | warnEntry (entry : String)
deriving DecidableEq

/-- The inner per-file copy (lines 221-229): try `shutil.copy2`; a
`PermissionError` or any other exception is reported as a warning and the
loop continues. -/
def copyFileEv (fail : FPath → Option FailKind) (sp : FPath) : MirrorEvent :=
  match fail sp with
  | none => .copied sp
  | some .perm => .warnPerm sp
  | some .other => .warnCopy sp

/-- The `for file in files` loop at one `os.walk` level: copy each plain
file directly contained in the directory. -/
def fileEvs (fail : FPath → Option FailKind) (sp : FPath) :
    List (String × FSTree) → List MirrorEvent
  | [] => []
  | (n, .file) :: rest => copyFileEv fail (sp ++ [n]) :: fileEvs fail sp rest
  | (_, .dir _) :: rest => fileEvs fail sp rest

mutual

/-- The `os.walk` copy of one directory (lines 216-229): create the
destination directory for this level, copy the files at this level, then
recurse into each subdirectory in order. -/
def walkTree (fail : FPath → Option FailKind) :
    FSTree → FPath → FPath → List MirrorEvent
  | .file, _, _ => []
  | .dir cs, sp, dp =>
      .mkdirP dp :: (fileEvs fail sp cs ++ walkSubdirs fail cs sp dp)

/-- Recursion of the walk into the subdirectories of one level. -/
def walkSubdirs (fail : FPath → Option FailKind) :
    List (String × FSTree) → FPath → FPath → List MirrorEvent
  | [], _, _ => []
  | (_, .file) :: rest, sp, dp => walkSubdirs fail rest sp dp
  | (n, .dir cs) :: rest, sp, dp =>
      walkTree fail (.dir cs) (sp ++ [n]) (dp ++ [n])
        ++ walkSubdirs fail rest sp dp

end

/-- The source paths of all files anywhere below a directory level. -/
def dirFiles (sp : FPath) : List (String × FSTree) → List FPath
  | [] => []
  | (n, .file) :: rest => (sp ++ [n]) :: dirFiles sp rest
  | (n, .dir cs) :: rest => dirFiles (sp ++ [n]) cs ++ dirFiles sp rest

/-- Accumulator splitting of a character list at every `/`. -/
def splitSlashAux : List Char → List Char → List String
  | [], acc => [String.mk acc.reverse]
  | c :: rest, acc =>
      if c = '/' then String.mk acc.reverse :: splitSlashAux rest []
      else splitSlashAux rest (c :: acc)

/-- Split a configured entry string into the path components that the
Python path join gives it (`.ssh/config` becomes `[".ssh", "config"]`). -/
def entryPath (entry : String) : FPath := splitSlashAux entry.toList []

/-- The body of the `for config_path in self.CONFIG_PATHS` loop
(lines 206-233): skip the entry when the source does not exist; otherwise
create the destination parent directory, copy a plain file inside the
outer `try` (so any copy failure there reports the whole entry), or walk
a directory with per-file error handling, and report the entry as backed
up. -/
def processEntry (lookup : String → Option FSTree)
    (fail : FPath → Option FailKind) (entry : String) : List MirrorEvent :=
  match lookup entry with
  | none => []
  | some t =>
      let src := entryPath entry
      let dst := "configs" :: entryPath entry
      MirrorEvent.mkdirP dst.dropLast ::
        (match t with
         | .file =>
             (match fail src with
              | none => [.copied src, .okEntry entry]
              | some _ => [.warnEntry entry])
         | .dir cs =>
             walkTree fail (.dir cs) src dst ++ [.okEntry entry])

/-- Embedding of `HomeBackup.backup_configs` (lines 201-233): create `configs/` and
process each configured entry in order. -/
def backup_configs (lookup : String → Option FSTree)
    (fail : FPath → Option FailKind) (entries : List String) :
    List MirrorEvent :=
  MirrorEvent.mkdirP ["configs"] :: entries.flatMap (processEntry lookup fail)

/-- The fixed entry list of the script (`HomeBackup.CONFIG_PATHS`). -/
def CONFIG_PATHS : List String :=
  [".bashrc",
   ".profile",
   ".gitconfig",
   ".ssh/config",
   ".config/r",
   ".julia/config",
   ".config/pip",
   ".local/share/jupyter/kernels",
   ".Rprofile",
   ".Renviron",
   ".config/Code/User/settings.json",
   ".config/Code/User/keybindings.json",
   ".config/Code/User/snippets",
   ".jupyter/jupyter_notebook_config.py",
   ".config/matplotlib/matplotlibrc",
   ".zshrc",
   ".zprofile",
   ".oh-my-zsh/custom",
   ".oh-my-zsh/custom/themes",
   ".oh-my-zsh/custom/plugins",
   ".oh-my-zsh/custom/aliases.zsh",
   ".oh-my-zsh/custom/functions.zsh"]

/-- The backup steps `run_backup` performs after reconciling the remote. -/
inductive Step where
  | packageLists
  | omzLists
  | mirrorStep
  | readmeStep
  | syncStep
deriving DecidableEq

/-- Result of one run of `HomeBackup.run_backup`. -/
structure BackupOut where
  result : RunResult Unit
  steps : List Step
  ghMsgs : List String
  mirror : List MirrorEvent
  syncMsgs : List String


/-- The default repository name hard-coded in the script. -/
def defaultRepoName : String := "home_backup"

/-- Embedding of `HomeBackup.run_backup` (lines 570-598): reconcile the remote
repository (named `home_backup`); `sys.exit` inside the reconciler
terminates the process before any backup step runs.  Otherwise save the
package lists, the Oh My Zsh lists, mirror the configured entries, write
the README and synchronize the git repository. -/
def run_backup (username : String) (api : GHApi) (s : RepoState)
    (lookup : String → Option FSTree) (fail : FPath → Option FailKind)
    (backupDir : String) (o : GitOracle) (gs : GitState) : BackupOut :=
  let ro := get_or_create_repo api username defaultRepoName s
  match ro.result with
  | .exit c =>
      { result := .exit c, steps := [], ghMsgs := ro.msgs,
        mirror := [], syncMsgs := [] }
  | .ok url =>
      let ev := backup_configs lookup fail CONFIG_PATHS
      let so := setup_git_repo IGNORE_PATTERNS backupDir url o gs
      { result := so.result,
        steps := [.packageLists, .omzLists, .mirrorStep, .readmeStep, .syncStep],
        ghMsgs := ro.msgs, mirror := ev, syncMsgs := so.msgs }

/-! ## Helper lemmas -/

/-- The existence flag of the probe classification is true exactly on
return code 0. -/
theorem verify_fst_true_iff (u r : String) (api : ApiResult) :
    (verify_repo_status u r api).1 = true ↔ api.returncode = 0 := by
  unfold verify_repo_status
  by_cases h0 : api.returncode = 0 <;>
    by_cases hm : strContains api.stderr notFoundMarker = true <;> simp_all

/-- An `unknown` classification has its existence flag false. -/
theorem verify_fst_of_unknown (u r : String) (api : ApiResult)
    (h : statusOf u r api = "unknown") :
    (verify_repo_status u r api).1 = false := by
  unfold statusOf verify_repo_status at *
  by_cases h0 : api.returncode = 0 <;>
    by_cases hm : strContains api.stderr notFoundMarker = true <;> simp_all

/-- When authentication, deletion and creation all succeed, one
reconciler run returns the derived URL and leaves the repository freshly
created, from any starting state. -/
theorem reconcile_ok (api : GHApi) (u r : String) (s : RepoState)
    (hA : api.authOk = true) (hD : api.deleteOk = true)
    (hC : api.createOk = true) :
    (get_or_create_repo api u r s).result = .ok (mkRepoUrl u r)
    ∧ (get_or_create_repo api u r s).repo = .created := by
  by_cases hv : (verify_repo_status u r (api.probe s)).1 = true
  · simp [get_or_create_repo, createStep, hA, hD, hC, hv]
  · simp [get_or_create_repo, createStep, hA, hD, hC, hv]

/-! ## Claims -/

/-- Claim C1. When the external calls succeed, running
`get_or_create_repo` twice in succession leaves the remote repository in
state `created` after each call, and both calls return the same
endpoint: the URL `https://github.com/<identity>/<repoName>.git` derived
deterministically from the identity and the name (the create response is
never consulted). -/
theorem C1_reconcile_twice (api : GHApi) (username repoName : String)
    (s : RepoState) (hA : api.authOk = true) (hD : api.deleteOk = true)
    (hC : api.createOk = true) :
    (get_or_create_repo api username repoName s).result
        = .ok (mkRepoUrl username repoName)
    ∧ (get_or_create_repo api username repoName s).repo = .created
    ∧ (get_or_create_repo api username repoName
          (get_or_create_repo api username repoName s).repo).result
        = .ok (mkRepoUrl username repoName)
    ∧ (get_or_create_repo api username repoName
          (get_or_create_repo api username repoName s).repo).repo
        = .created := by
  refine ⟨(reconcile_ok api username repoName s hA hD hC).1,
          (reconcile_ok api username repoName s hA hD hC).2,
          (reconcile_ok api username repoName _ hA hD hC).1,
          (reconcile_ok api username repoName _ hA hD hC).2⟩

/-- The identity used by concrete witnesses. -/
def userW : String := "alice"

/-- A fully well-behaved API oracle: authenticated, probes report
existence faithfully, deletion and creation succeed. -/
def apiAllOk : GHApi where
  authOk := true
  probe := fun st =>
    match st with
    | .absent => { returncode := 1,
                   stderr := "\"message\": \"Not Found\", \"status\": \"404\"" }
    | _ => { returncode := 0, stderr := "" }
  deleteOk := true
  createOk := true
  createStderr := ""

/-- Witness for C1 at a concrete input: identity `alice`, repository
`home_backup`, starting from an already-existing remote. -/
theorem C1_reconcile_twice_witness :
    (get_or_create_repo apiAllOk userW defaultRepoName .existing).result
        = .ok (mkRepoUrl userW defaultRepoName)
    ∧ (get_or_create_repo apiAllOk userW defaultRepoName .existing).repo
        = .created
    ∧ (get_or_create_repo apiAllOk userW defaultRepoName
          (get_or_create_repo apiAllOk userW defaultRepoName .existing).repo).result
        = .ok (mkRepoUrl userW defaultRepoName)
    ∧ (get_or_create_repo apiAllOk userW defaultRepoName
          (get_or_create_repo apiAllOk userW defaultRepoName .existing).repo).repo
        = .created :=
  C1_reconcile_twice apiAllOk userW defaultRepoName .existing rfl rfl rfl

/-- Claim C3. When the existence check classifies the status as `unknown`,
the reconciler behaves as if the repository does not exist: the call
trace is exactly authentication check, existence probe, create request —
the delete step is skipped and the create request is issued rather than
aborting beforehand. -/
theorem C3_unknown_skips_delete (api : GHApi) (username repoName : String)
    (s : RepoState) (hA : api.authOk = true)
    (hU : statusOf username repoName (api.probe s) = "unknown") :
    (get_or_create_repo api username repoName s).acts
      = [.authCheck, .probeRepo, .createRepo] := by
  have hv := verify_fst_of_unknown username repoName (api.probe s) hU
  by_cases hc : api.createOk = true <;>
    simp [get_or_create_repo, createStep, hA, hv, hc]

/-- An API oracle whose existence probe fails indeterminately (HTTP 500,
no `Not Found` marker) and whose delete call would fail if issued. -/
def apiUnknown : GHApi where
  authOk := true
  probe := fun _ => { returncode := 1, stderr := "HTTP 500 Internal Server Error" }
  deleteOk := false
  createOk := true
  createStderr := ""

/-- Witness for C3 at a concrete input: an indeterminate probe result
leads straight to the create call, with no delete call issued. -/
theorem C3_unknown_skips_delete_witness :
    (get_or_create_repo apiUnknown userW defaultRepoName .existing).acts
      = [.authCheck, .probeRepo, .createRepo] :=
  C3_unknown_skips_delete apiUnknown userW defaultRepoName .existing rfl (by rfl)

/-- Claim C4. If the repository is classified as existing and the delete
request fails, or if the create request fails, the whole run terminates
with exit status 1 and one of the diagnostic messages is printed; no
further backup step (package lists, mirroring, documentation,
synchronization) is performed. -/
theorem C4_reconcile_failure_fatal (username : String) (api : GHApi)
    (s : RepoState) (lookup : String → Option FSTree)
    (fail : FPath → Option FailKind) (backupDir : String)
    (o : GitOracle) (gs : GitState)
    (hA : api.authOk = true)
    (hFail :
      ((verify_repo_status username defaultRepoName (api.probe s)).1 = true
          ∧ api.deleteOk = false)
      ∨ api.createOk = false) :
    (run_backup username api s lookup fail backupDir o gs).result = .exit 1
    ∧ (run_backup username api s lookup fail backupDir o gs).steps = []
    ∧ (run_backup username api s lookup fail backupDir o gs).mirror = []
    ∧ (run_backup username api s lookup fail backupDir o gs).syncMsgs = []
    ∧ ("Failed to delete existing repository."
          ∈ (run_backup username api s lookup fail backupDir o gs).ghMsgs
       ∨ "Error creating repository: " ++ api.createStderr
          ∈ (run_backup username api s lookup fail backupDir o gs).ghMsgs) := by
  rcases hFail with ⟨hv, hd⟩ | hc
  · simp [run_backup, get_or_create_repo, createStep, hA, hv, hd]
  · by_cases hv : (verify_repo_status username defaultRepoName (api.probe s)).1 = true
    · by_cases hd : api.deleteOk = true
      · simp [run_backup, get_or_create_repo, createStep, hA, hv, hd, hc]
      · simp [run_backup, get_or_create_repo, createStep, hA, hv, hd, hc]
    · simp [run_backup, get_or_create_repo, createStep, hA, hv, hc]

/-- An API oracle whose delete call fails while the probe reports the
repository as existing. -/
def apiDeleteFail : GHApi where
  authOk := true
  probe := fun _ => { returncode := 0, stderr := "" }
  deleteOk := false
  createOk := true
  createStderr := ""

/-- The staging directory used by concrete witnesses. -/
def dirW : String := "/home/alice/home_backup"

/-- A benign git oracle and git state for instantiating run-level
witnesses. -/
def gitOracleOk : GitOracle where
  initOk := true
  remoteAddOk := true
  remoteListing := "origin\thttps://github.com/alice/home_backup.git (fetch)"
  addAllOk := true
  commitExtraFail := false
  pushOk := true

/-- A fresh local staging-tree state (no `.git` yet). -/
def gitStateFresh : GitState where
  gitExists := false
  gitignore := none
  headTree := none
  workTree := "tree-v1"

/-- Witness for C4 at a concrete input: existing repository, failing
delete call. -/
theorem C4_reconcile_failure_fatal_witness :
    (run_backup userW apiDeleteFail .existing (fun _ => none) (fun _ => none)
        dirW gitOracleOk gitStateFresh).result = .exit 1
    ∧ (run_backup userW apiDeleteFail .existing (fun _ => none) (fun _ => none)
        dirW gitOracleOk gitStateFresh).steps = []
    ∧ (run_backup userW apiDeleteFail .existing (fun _ => none) (fun _ => none)
        dirW gitOracleOk gitStateFresh).mirror = []
    ∧ (run_backup userW apiDeleteFail .existing (fun _ => none) (fun _ => none)
        dirW gitOracleOk gitStateFresh).syncMsgs = []
    ∧ ("Failed to delete existing repository."
          ∈ (run_backup userW apiDeleteFail .existing (fun _ => none)
              (fun _ => none) dirW gitOracleOk
              gitStateFresh).ghMsgs
       ∨ "Error creating repository: " ++ apiDeleteFail.createStderr
          ∈ (run_backup userW apiDeleteFail .existing (fun _ => none)
              (fun _ => none) dirW gitOracleOk
              gitStateFresh).ghMsgs) :=
  C4_reconcile_failure_fatal userW apiDeleteFail .existing (fun _ => none)
    (fun _ => none) dirW gitOracleOk gitStateFresh rfl
    (Or.inl ⟨by rfl, rfl⟩)

/-- Every file below a directory level gets its per-file copy event
(copy or warning, per the failure oracle) emitted by the walk. -/
theorem copyEv_mem_walk (fail : FPath → Option FailKind) (sp : FPath)
    (cs : List (String × FSTree)) :
    ∀ (dp p : FPath), p ∈ dirFiles sp cs →
      copyFileEv fail p ∈ walkTree fail (.dir cs) sp dp := by
  induction sp, cs using dirFiles.induct with
  | case1 sp =>
      intro dp p hp
      simp [dirFiles] at hp
  | case2 sp n rest ih =>
      intro dp p hp
      simp only [dirFiles, List.mem_cons] at hp
      rcases hp with rfl | hp
      · simp [walkTree, fileEvs]
      · have h2 := ih dp p hp
        simp only [walkTree, fileEvs, walkSubdirs, List.mem_cons,
          List.mem_append] at h2 ⊢
        tauto
  | case3 sp n cs2 rest ih1 ih2 =>
      intro dp p hp
      simp only [dirFiles, List.mem_append] at hp
      rcases hp with hp | hp
      · have h2 := ih1 (dp ++ [n]) p hp
        simp only [walkTree, fileEvs, walkSubdirs, List.mem_cons,
          List.mem_append] at h2 ⊢
        tauto
      · have h2 := ih2 dp p hp
        simp only [walkTree, fileEvs, walkSubdirs, List.mem_cons,
          List.mem_append] at h2 ⊢
        tauto

/-- Claim C5. A copy failure on any single file contained in a directory
entry does not abort the mirror: for an arbitrary per-file failure
oracle, every contained file that does not fail is still copied (in this
entry and in every other entry of the list), every failing file is
reported as a warning (permission or generic), and the entry still
completes with its backed-up report. -/
theorem C5_mirror_failure_isolation
    (lookup : String → Option FSTree) (fail : FPath → Option FailKind)
    (entries : List String) (e : String) (cs : List (String × FSTree))
    (p : FPath) (he : e ∈ entries) (hl : lookup e = some (.dir cs))
    (hp : p ∈ dirFiles (entryPath e) cs) :
    (fail p = none →
        MirrorEvent.copied p ∈ backup_configs lookup fail entries)
    ∧ (fail p = some .perm →
        MirrorEvent.warnPerm p ∈ backup_configs lookup fail entries)
    ∧ (fail p = some .other →
        MirrorEvent.warnCopy p ∈ backup_configs lookup fail entries)
    ∧ MirrorEvent.okEntry e ∈ backup_configs lookup fail entries := by
  have hw := copyEv_mem_walk fail (entryPath e) cs
    ("configs" :: entryPath e) p hp
  have hmem : ∀ x, x ∈ processEntry lookup fail e →
      x ∈ backup_configs lookup fail entries := by
    intro x hx
    simp only [backup_configs, List.mem_cons, List.mem_flatMap]
    exact Or.inr ⟨e, he, hx⟩
  have hproc : copyFileEv fail p ∈ processEntry lookup fail e := by
    simp only [processEntry, hl, List.mem_cons, List.mem_append]
    tauto
  have hok : MirrorEvent.okEntry e ∈ processEntry lookup fail e := by
    simp [processEntry, hl]
  have hcp := hmem _ hproc
  refine ⟨?_, ?_, ?_, hmem _ hok⟩ <;> intro hf <;>
    simpa [copyFileEv, hf] using hcp

/-- The directory entry the mirror witnesses exercise. -/
def entryW : String := ".config/pip"

/-- An entry that is absent in the witness filesystem. -/
def entryAbsentW : String := ".gitconfig"

/-- A concrete source filesystem for the mirror witnesses: `.config/pip`
is a directory with two files and a subdirectory, `.zshrc` is a plain
file, everything else is absent. -/
def lookupW : String → Option FSTree := fun e =>
  if e = ".config/pip" then
    some (.dir [("pip.conf", .file), ("locked.conf", .file),
                ("sub", .dir [("inner.conf", .file)])])
  else if e = ".zshrc" then some .file
  else none

/-- A concrete failure oracle: exactly one file raises
`PermissionError`. -/
def failW : FPath → Option FailKind := fun p =>
  if p = [".config", "pip", "locked.conf"] then some .perm else none

/-- Witness for C5 at a concrete input: with one permission-denied file
in `.config/pip`, the other files are still copied, the failure is
reported as a warning, and the entry completes. -/
theorem C5_mirror_failure_isolation_witness :
    MirrorEvent.copied [".config", "pip", "pip.conf"]
        ∈ backup_configs lookupW failW CONFIG_PATHS
    ∧ MirrorEvent.copied [".config", "pip", "sub", "inner.conf"]
        ∈ backup_configs lookupW failW CONFIG_PATHS
    ∧ MirrorEvent.warnPerm [".config", "pip", "locked.conf"]
        ∈ backup_configs lookupW failW CONFIG_PATHS
    ∧ MirrorEvent.okEntry entryW
        ∈ backup_configs lookupW failW CONFIG_PATHS :=
  ⟨(C5_mirror_failure_isolation lookupW failW CONFIG_PATHS
      entryW _ [".config", "pip", "pip.conf"]
      (by decide) rfl (by simp [dirFiles]; decide)).1 rfl,
   (C5_mirror_failure_isolation lookupW failW CONFIG_PATHS
      entryW _ [".config", "pip", "sub", "inner.conf"]
      (by decide) rfl (by simp [dirFiles]; decide)).1 rfl,
   (C5_mirror_failure_isolation lookupW failW CONFIG_PATHS
      entryW _ [".config", "pip", "locked.conf"]
      (by decide) rfl (by simp [dirFiles]; decide)).2.1 rfl,
   (C5_mirror_failure_isolation lookupW failW CONFIG_PATHS
      entryW _ [".config", "pip", "pip.conf"]
      (by decide) rfl (by simp [dirFiles]; decide)).2.2.2⟩

/-- Claim C6. An entry whose source path does not exist is skipped without
error: its processing produces no event at all (no copy, no directory
creation, no warning); and a destination directory-creation event can
only come from an entry whose source exists. -/
theorem C6_absent_entry_skipped (lookup : String → Option FSTree)
    (fail : FPath → Option FailKind) (e : String)
    (h : lookup e = none) :
    processEntry lookup fail e = []
    ∧ ∀ (e2 : String) (dst : FPath),
        MirrorEvent.mkdirP dst ∈ processEntry lookup fail e2 →
        lookup e2 ≠ none := by
  constructor
  · simp [processEntry, h]
  · intro e2 dst hm hnone
    simp [processEntry, hnone] at hm

/-- Witness for C6 at a concrete input: `.gitconfig` is absent in
`lookupW`, and its processing produces nothing. -/
theorem C6_absent_entry_skipped_witness :
    processEntry lookupW failW entryAbsentW = [] :=
  (C6_absent_entry_skipped lookupW failW entryAbsentW rfl).1

/-- A list is a Boolean prefix of itself followed by anything. -/
theorem isPrefixB_append (l t : List Char) : isPrefixB l (l ++ t) = true := by
  induction l with
  | nil => rfl
  | cons a as ih => simp [isPrefixB, ih]

/-- The empty pattern occurs in every list. -/
theorem subOccurs_nil_pat (l : List Char) : subOccurs [] l = true := by
  cases l with
  | nil => rfl
  | cons c rest => simp [subOccurs, isPrefixB]

/-- A pattern occurs in any list that embeds it between two arbitrary
pieces. -/
theorem subOccurs_append_self (pat pre post : List Char) :
    subOccurs pat (pre ++ pat ++ post) = true := by
  induction pre with
  | nil =>
      cases pat with
      | nil => simpa using subOccurs_nil_pat post
      | cons a as =>
          simp only [List.nil_append, List.cons_append, subOccurs,
            Bool.or_eq_true]
          exact Or.inl (by simpa using isPrefixB_append (a :: as) post)
  | cons c pre ih =>
      simp only [List.cons_append, subOccurs, Bool.or_eq_true]
      exact Or.inr (by simpa [List.append_assoc] using ih)

/-- Shape of a synchronizer run that reaches the commit stage: repository
initialized or initializable, remote add succeeding, URL present in the
remote listing, staging succeeding.  The run returns normally, the
repository metadata exists afterwards, the working tree is untouched, the
head records the working tree unless the commit failed, and the printed
messages consist of the commit report followed by the push report. -/
theorem setup_run_facts (patterns : List String) (d u : String)
    (o : GitOracle) (s : GitState)
    (hInit : s.gitExists = true ∨ o.initOk = true)
    (hR : o.remoteAddOk = true)
    (hV : strContains o.remoteListing u = true)
    (hAdd : o.addAllOk = true) :
    (setup_git_repo patterns d u o s).result = .ok ()
    ∧ (setup_git_repo patterns d u o s).state.gitExists = true
    ∧ (setup_git_repo patterns d u o s).state.workTree = s.workTree
    ∧ (setup_git_repo patterns d u o s).state.headTree =
        (if o.commitExtraFail = true ∨ s.headTree = some s.workTree
         then s.headTree else some s.workTree)
    ∧ (setup_git_repo patterns d u o s).msgs =
        (if o.commitExtraFail = true ∨ s.headTree = some s.workTree
         then ("No changes to commit") else ("Committed changes"))
        :: (if o.pushOk then ["Pushed to remote"]
            else ["Warning: Error pushing to remote",
                  "Manual push may be needed:",
                  "cd " ++ d,
                  "git push -u origin main"]) := by
  by_cases hg : s.gitExists = true
  · unfold setup_git_repo
    simp only [hg, verifyRemoteBinding, hV, hR]
    by_cases hcf : o.commitExtraFail = true ∨ s.headTree = some s.workTree <;>
      simp [hAdd, hcf, hg]
  · have hi : o.initOk = true := by
      rcases hInit with h | h
      · exact absurd h hg
      · exact h
    unfold setup_git_repo
    simp only [hg, hi, verifyRemoteBinding, hV, hR]
    by_cases hcf : o.commitExtraFail = true ∨ s.headTree = some s.workTree <;>
      simp [hAdd, hg, hcf]

/-- Claim C7. Once the repository metadata exists, a synchronizer run never
changes the `.gitignore` content, whatever ignore patterns are configured
and whatever the git oracle does: the ruleset file is written only at the
run that first creates `.git`. -/
theorem C7_gitignore_first_write_wins (patterns : List String)
    (backupDir repoUrl : String) (o : GitOracle) (s : GitState)
    (h : s.gitExists = true) :
    (setup_git_repo patterns backupDir repoUrl o s).state.gitignore
      = s.gitignore := by
  unfold setup_git_repo
  by_cases hR : o.remoteAddOk = false <;>
    by_cases hV : strContains o.remoteListing repoUrl = true <;>
      by_cases hAdd : o.addAllOk = false <;>
        by_cases hcf : o.commitExtraFail = true ∨ s.headTree = some s.workTree <;>
          simp [h, hR, hV, hAdd, hcf, verifyRemoteBinding]

/-- A benign git oracle whose remote listing carries the expected URL. -/
def oNoChange : GitOracle where
  initOk := true
  remoteAddOk := true
  remoteListing := "origin\thttps://github.com/alice/home_backup.git (fetch)"
  addAllOk := true
  commitExtraFail := false
  pushOk := true

/-- A local repository state with a customized ignore file and an
unchanged staging tree. -/
def sNoChange : GitState where
  gitExists := true
  gitignore := some ("custom-ignore")
  headTree := some ("tree-v1")
  workTree := "tree-v1"

/-- The endpoint URL used by the concrete synchronizer runs. -/
def urlW : String := "https://github.com/alice/home_backup.git"

/-- Witness for C7 at a concrete input: a pre-seeded custom `.gitignore`
survives a run performed with the pattern configuration of the script
itself, which differs from the seeded content. -/
theorem C7_gitignore_first_write_wins_witness :
    (setup_git_repo IGNORE_PATTERNS dirW urlW
        oNoChange sNoChange).state.gitignore = sNoChange.gitignore :=
  C7_gitignore_first_write_wins IGNORE_PATTERNS dirW
    urlW oNoChange sNoChange rfl

/-- The benign oracle, but `git commit` fails for a reason other than an
unchanged tree. -/
def oCommitErr : GitOracle :=
  { oNoChange with commitExtraFail := true }

/-- A local repository state with genuine staged changes. -/
def sChanged : GitState where
  gitExists := true
  gitignore := some ("custom-ignore")
  headTree := none
  workTree := "tree-v1"

/-- Claim C8, counterexample. A commit failure with a cause other than
nothing-to-commit (here: genuine changes are staged, the commit call
fails anyway) produces exactly the same process result and the same
console messages as a genuine nothing-to-commit run — the message is the
same `No changes to commit` — so the script does not distinguish the
expected case from other commit failures, contradicting the claim that
other failures are surfaced to the operator. -/
theorem C8_commit_failure_not_distinguished :
    ((setup_git_repo IGNORE_PATTERNS dirW urlW
        oCommitErr sChanged).result
      = (setup_git_repo IGNORE_PATTERNS dirW urlW
          oNoChange sNoChange).result)
    ∧ ((setup_git_repo IGNORE_PATTERNS dirW urlW
        oCommitErr sChanged).msgs
      = (setup_git_repo IGNORE_PATTERNS dirW urlW
          oNoChange sNoChange).msgs)
    ∧ (setup_git_repo IGNORE_PATTERNS dirW urlW
        oCommitErr sChanged).msgs
      = ["No changes to commit", "Pushed to remote"] :=
  ⟨rfl, rfl, rfl⟩

/-- Claim C8, amended. Every commit failure — nothing-to-commit or any
other cause — is non-fatal, but the script does not distinguish them: it
reports each with the same `No changes to commit` message; and running
the synchronizer twice with no intervening change to the staging tree
yields the nothing-to-commit outcome, not an error, on the second run. -/
theorem C8_commit_failures_conflated_nonfatal (patterns : List String)
    (d u : String) (o : GitOracle) (s : GitState)
    (hInit : s.gitExists = true ∨ o.initOk = true)
    (hR : o.remoteAddOk = true)
    (hV : strContains o.remoteListing u = true)
    (hAdd : o.addAllOk = true) :
    ((o.commitExtraFail = true ∨ s.headTree = some s.workTree) →
      (setup_git_repo patterns d u o s).result = .ok ()
      ∧ "No changes to commit" ∈ (setup_git_repo patterns d u o s).msgs)
    ∧ (o.commitExtraFail = false →
        (setup_git_repo patterns d u o
            (setup_git_repo patterns d u o s).state).result = .ok ()
        ∧ "No changes to commit" ∈ (setup_git_repo patterns d u o
            (setup_git_repo patterns d u o s).state).msgs) := by
  obtain ⟨hres, hex, hwt, hht, hmsgs⟩ :=
    setup_run_facts patterns d u o s hInit hR hV hAdd
  constructor
  · intro hfail
    exact ⟨hres, by simp [hmsgs, hfail]⟩
  · intro hX
    set s2 := (setup_git_repo patterns d u o s).state with hs2
    have hht2 : s2.headTree = some s2.workTree := by
      rw [hwt, hht, hX]
      simp only [Bool.false_eq_true, false_or]
      split
      · assumption
      · rfl
    obtain ⟨hres2, _, _, _, hmsgs2⟩ :=
      setup_run_facts patterns d u o s2 (Or.inl hex) hR hV hAdd
    refine ⟨hres2, ?_⟩
    rw [hmsgs2, if_pos (Or.inr hht2)]
    simp

/-- Witness for C8 (amended) at a concrete input: starting from a fresh
tree with staged changes, the second run reports nothing to commit and
still succeeds. -/
theorem C8_commit_failures_conflated_nonfatal_witness :
    (setup_git_repo IGNORE_PATTERNS dirW urlW
        oNoChange
        (setup_git_repo IGNORE_PATTERNS dirW urlW
          oNoChange sChanged).state).result = .ok ()
    ∧ "No changes to commit" ∈
        (setup_git_repo IGNORE_PATTERNS dirW urlW
          oNoChange
          (setup_git_repo IGNORE_PATTERNS dirW urlW
            oNoChange sChanged).state).msgs :=
  (C8_commit_failures_conflated_nonfatal IGNORE_PATTERNS
    dirW urlW oNoChange sChanged (Or.inl rfl) rfl
    (by rfl) rfl).2 rfl

/-- Claim C9. A push failure is non-fatal: the whole run still completes
with a normal (zero) exit status, and the synchronizer reports the exact
manual recovery commands — the directory to change to and the push
command to run. -/
theorem C9_push_failure_nonfatal (username : String) (api : GHApi)
    (s : RepoState) (lookup : String → Option FSTree)
    (fail : FPath → Option FailKind) (backupDir : String)
    (o : GitOracle) (gs : GitState)
    (hA : api.authOk = true) (hD : api.deleteOk = true)
    (hC : api.createOk = true)
    (hInit : gs.gitExists = true ∨ o.initOk = true)
    (hR : o.remoteAddOk = true)
    (hV : strContains o.remoteListing (mkRepoUrl username defaultRepoName) = true)
    (hAdd : o.addAllOk = true)
    (hPush : o.pushOk = false) :
    (run_backup username api s lookup fail backupDir o gs).result = .ok ()
    ∧ "cd " ++ backupDir
        ∈ (run_backup username api s lookup fail backupDir o gs).syncMsgs
    ∧ "git push -u origin main"
        ∈ (run_backup username api s lookup fail backupDir o gs).syncMsgs
    ∧ "Manual push may be needed:"
        ∈ (run_backup username api s lookup fail backupDir o gs).syncMsgs := by
  have hro := (reconcile_ok api username defaultRepoName s hA hD hC).1
  obtain ⟨hres, _, _, _, hmsgs⟩ :=
    setup_run_facts IGNORE_PATTERNS backupDir
      (mkRepoUrl username defaultRepoName) o gs hInit hR hV hAdd
  simp only [run_backup, hro, hres, hmsgs, hPush]
  simp

/-- A benign git oracle whose push call fails. -/
def oPushFail : GitOracle :=
  { oNoChange with pushOk := false }

/-- Witness for C9 at a concrete input: a failing push still yields a
normal completion, with the recovery commands reported. -/
theorem C9_push_failure_nonfatal_witness :
    (run_backup userW apiAllOk .existing (fun _ => none) (fun _ => none)
        dirW oPushFail sChanged).result = .ok ()
    ∧ "cd " ++ dirW
        ∈ (run_backup userW apiAllOk .existing (fun _ => none)
            (fun _ => none) dirW oPushFail
            sChanged).syncMsgs
    ∧ "git push -u origin main"
        ∈ (run_backup userW apiAllOk .existing (fun _ => none)
            (fun _ => none) dirW oPushFail
            sChanged).syncMsgs
    ∧ "Manual push may be needed:"
        ∈ (run_backup userW apiAllOk .existing (fun _ => none)
            (fun _ => none) dirW oPushFail
            sChanged).syncMsgs :=
  C9_push_failure_nonfatal userW apiAllOk .existing (fun _ => none)
    (fun _ => none) dirW oPushFail sChanged rfl rfl rfl
    (Or.inl rfl) rfl (by rfl) rfl rfl

/-- Claim C10. The remote-binding verification accepts whenever the
endpoint URL occurs as a substring anywhere in the `git remote -v`
output — in particular under any remote name and position — and it
terminates the process with exit status 1 exactly when the URL does not
occur; inside the synchronizer run, that verification failure aborts with
exit status 1. -/
theorem C10_remote_verification_substring (repoUrl : String)
    (patterns : List String) (d : String) (o : GitOracle) (s : GitState)
    (hInit : s.gitExists = true ∨ o.initOk = true)
    (hR : o.remoteAddOk = true)
    (hNo : strContains o.remoteListing repoUrl = false) :
    (∀ listing : String,
        ((verifyRemoteBinding repoUrl listing).1 = RunResult.exit 1
          ↔ strContains listing repoUrl = false))
    ∧ (∀ listing : String,
        (∃ pre post : List Char,
            listing.toList = pre ++ repoUrl.toList ++ post) →
        (verifyRemoteBinding repoUrl listing).1 = RunResult.ok ())
    ∧ (setup_git_repo patterns d repoUrl o s).result = RunResult.exit 1 := by
  refine ⟨?_, ?_, ?_⟩
  · intro listing
    unfold verifyRemoteBinding
    by_cases hc : strContains listing repoUrl = true <;> simp [hc]
  · rintro listing ⟨pre, post, hdec⟩
    have hocc : strContains listing repoUrl = true := by
      unfold strContains
      rw [hdec]
      exact subOccurs_append_self repoUrl.toList pre post
    simp [verifyRemoteBinding, hocc]
  · by_cases hg : s.gitExists = true
    · unfold setup_git_repo
      simp [hg, hR, verifyRemoteBinding, hNo]
    · have hi : o.initOk = true := by
        rcases hInit with h | h
        · exact absurd h hg
        · exact h
      unfold setup_git_repo
      simp [hg, hi, hR, verifyRemoteBinding, hNo]

/-- The benign oracle, but the remote listing does not mention the
expected URL. -/
def oBadRemote : GitOracle :=
  { oNoChange with
      remoteListing := "origin\thttps://github.com/alice/other.git (fetch)" }

/-- Witness for C10 at a concrete input: a remote listing without the
expected URL makes the synchronizer exit with status 1. -/
theorem C10_remote_verification_substring_witness :
    (setup_git_repo IGNORE_PATTERNS dirW urlW
        oBadRemote sNoChange).result = RunResult.exit 1 :=
  (C10_remote_verification_substring urlW IGNORE_PATTERNS
    dirW oBadRemote sNoChange (Or.inl rfl) rfl
    (by rfl)).2.2

end Backup
